import Mathlib

/-!
Verification of the churn-model core of the ecommerce-bi-system repository
(`src/churn_model.py`, class `ChurnPredictionModel`), shallowly embedded in
Lean 4.

Modelling conventions:
* A pandas DataFrame row of the churn-feature table produced by
  `BusinessAnalytics.calculate_churn_features()` is a `RawRow`; the whole
  frame is a `RawDF`.  The SQL query always yields the numeric columns
  `order_count_12m` (COUNT) and `revenue_12m` (SUM), so those are total `ℚ`
  values; `last_order_date` is `Option ℤ` (a day number after
  `pd.to_datetime(..., errors="coerce")`: `none` models an absent or
  unparseable date, i.e. `NaT`); `is_churned` is `Option ℚ` (`none` models a
  `NaN` label, the case `dropna(subset=["is_churned"])` removes).
* `pd.Timestamp("now").normalize()` (churn_model.py line 65) is a single
  clock read per call; it is passed explicitly as the day number `ref : ℤ`.
* `np.log10` is an external pure numeric routine; it is passed as an
  explicit function argument `l : ℚ → ℚ` (its value is irrelevant to every
  property proved here).
* Machine floats are modelled by `ℚ`; the float values occurring in the
  verified properties (day differences, medians, 0/1 indicators) are exact
  in both worlds.
* The sklearn calls that are iterative numeric solvers or seeded PRNG
  routines (`train_test_split`, `LogisticRegression.fit/predict/
  predict_proba`, `roc_auc_score`, the square root inside
  `StandardScaler.transform`) are opaque external collaborators, collected
  in a `SklearnOracle` record and quantified over.  `StandardScaler`'s
  fitted statistics (per-column mean and variance) are embedded exactly.
-/

/-- One row of the churn-feature table coming from
`calculate_churn_features()` (columns: customer_id, order_count_12m,
revenue_12m, last_order_date, is_churned). -/
structure RawRow where
  customer_id : ℕ
  order_count_12m : ℚ
  revenue_12m : ℚ
  last_order_date : Option ℤ
  is_churned : Option ℚ
deriving DecidableEq

/-- The input DataFrame of `ChurnPredictionModel.prepare_features`.
`hasLastOrderDate` models the column-presence test
`"last_order_date" in out.columns` (churn_model.py line 63). -/
structure RawDF where
  hasLastOrderDate : Bool
  rows : List RawRow
deriving DecidableEq

/-- A row of the DataFrame returned by `prepare_features`: the input columns
plus every derived column (churn_model.py lines 62-76).  `recency_bucket`
is `Option ℚ` because `pd.cut` yields `NaN` for values outside all bins and
the code casts the result with `.astype(float)`. -/
structure FeatureRow where
  customer_id : ℕ
  order_count_12m : ℚ
  revenue_12m : ℚ
  last_order_date : Option ℤ
  is_churned : Option ℚ
  days_since_last_order : ℤ
  avg_order_value : ℚ
  log_revenue : ℚ
  order_count_sq : ℚ
  recency_bucket : Option ℚ
  is_high_value : ℤ
  orders_per_month : ℚ
  revenue_per_order : ℚ
deriving DecidableEq

/-- Insert a value into an already ascending list, keeping it ascending. -/
def insertAsc (x : ℚ) : List ℚ → List ℚ
  | [] => [x]
  | y :: ys => if x ≤ y then x :: y :: ys else y :: insertAsc x ys

/-- Sort a list of rationals ascending (insertion sort). -/
def sortAsc (xs : List ℚ) : List ℚ :=
  xs.foldr insertAsc []

/-- `pandas.Series.median()` on a series without missing values: sort, take
the middle element (odd length) or the mean of the two middle elements
(even length).  The empty case is unreachable in `prepare_features`
because of its early return on an empty frame. -/
def pandasMedian (xs : List ℚ) : ℚ :=
  let s := sortAsc xs
  let n := s.length
  if n % 2 = 1 then s.getD (n / 2) 0
  else (s.getD (n / 2 - 1) 0 + s.getD (n / 2) 0) / 2

/-- `days_since_last_order` for one row (churn_model.py lines 63-69):
if the `last_order_date` column exists, `(ref - last).dt.days` with
`NaT ↦ fillna(999)` and then `.clip(0, 999)`; otherwise the constant 999. -/
def daysSince (hasCol : Bool) (ref : ℤ) (lod : Option ℤ) : ℤ :=
  if hasCol then
    match lod with
    | some d => min 999 (max 0 (ref - d))
    | none => 999
  else 999

/-- `pd.cut(days, bins=[-1, 30, 60, 90, 999], labels=[1, 2, 3, 4])`
(churn_model.py line 73): right-closed intervals, `NaN` outside all bins,
then `.astype(float)`. -/
def pdCutRecency (d : ℤ) : Option ℚ :=
  if -1 < d ∧ d ≤ 30 then some 1
  else if 30 < d ∧ d ≤ 60 then some 2
  else if 60 < d ∧ d ≤ 90 then some 3
  else if 90 < d ∧ d ≤ 999 then some 4
  else none

/-- The row-wise part of `prepare_features` (churn_model.py lines 62-76):
all derived columns of one row, given the batch median `med` of
`revenue_12m` (the median is computed over the whole frame, before the
`dropna` on the label). -/
def mkFeatureRow (l : ℚ → ℚ) (hasCol : Bool) (ref : ℤ) (med : ℚ) (r : RawRow) :
    FeatureRow :=
  let d := daysSince hasCol ref r.last_order_date
  { customer_id := r.customer_id
    order_count_12m := r.order_count_12m
    revenue_12m := r.revenue_12m
    last_order_date := r.last_order_date
    is_churned := r.is_churned
    days_since_last_order := d
    avg_order_value := r.revenue_12m / (r.order_count_12m + 1)
    log_revenue := l (r.revenue_12m + 1)
    order_count_sq := r.order_count_12m ^ 2
    recency_bucket := pdCutRecency d
    is_high_value := if med ≤ r.revenue_12m then 1 else 0
    orders_per_month := r.order_count_12m / 12
    revenue_per_order := r.revenue_12m / (r.order_count_12m + 1) }

/-- `ChurnPredictionModel.prepare_features` (churn_model.py lines 48-87):
empty input returns empty output (line 60-61); otherwise every derived
column is computed on all rows (lines 62-76, with the `revenue_12m` median
taken over the whole batch at line 74), and only then are the rows without
a valid `is_churned` label dropped (line 86). -/
def prepare_features (l : ℚ → ℚ) (ref : ℤ) (df : RawDF) : List FeatureRow :=
  if df.rows.isEmpty then []
  else
    let med := pandasMedian (df.rows.map (fun r => r.revenue_12m))
    (df.rows.map (mkFeatureRow l df.hasLastOrderDate ref med)).filter
      (fun fr => fr.is_churned.isSome)

/-- The columns of the raw churn-feature frame (the SELECT list of
`calculate_churn_features()`): `last_order_date` only when the frame has
that column. -/
def rawColumns (hasLOD : Bool) : List String :=
  ["customer_id", "order_count_12m", "revenue_12m"]
    ++ (if hasLOD then ["last_order_date"] else [])
    ++ ["is_churned"]

/-- The model-feature column list hard-coded twice in churn_model.py
(lines 78-82 and 235-239). -/
def featureColsList : List String :=
  ["order_count_12m", "revenue_12m", "days_since_last_order",
   "avg_order_value", "log_revenue", "order_count_sq", "recency_bucket",
   "is_high_value", "orders_per_month"]

/-- Columns of the frame returned by `prepare_features` on nonempty input:
the raw columns plus every derived column of lines 62-76. -/
def preparedColumns (hasLOD : Bool) : List String :=
  rawColumns hasLOD
    ++ ["days_since_last_order", "avg_order_value", "log_revenue",
        "order_count_sq", "recency_bucket", "is_high_value",
        "orders_per_month", "revenue_per_order"]

/-- Columns of the frame `prepare_features` actually returns: on empty
input the frame is returned unchanged (line 60-61), so it keeps the raw
columns; otherwise it has the derived columns as well. -/
def preparedColumnsOf (df : RawDF) : List String :=
  if df.rows.isEmpty then rawColumns df.hasLastOrderDate
  else preparedColumns df.hasLastOrderDate

/-- The fitted state of `sklearn.preprocessing.StandardScaler`: per-column
mean and (population) variance. -/
structure ScalerParams where
  mean : List ℚ
  var : List ℚ
deriving DecidableEq

/-- Mean of a list of rationals. -/
def colMean (xs : List ℚ) : ℚ :=
  xs.sum / (xs.length : ℚ)

/-- Population variance (ddof = 0, as `StandardScaler` uses) of a list. -/
def colVar (xs : List ℚ) : ℚ :=
  ((xs.map (fun x => (x - colMean xs) ^ 2)).sum) / (xs.length : ℚ)

/-- Column `j` of a row-major matrix. -/
def matCol (X : List (List ℚ)) (j : ℕ) : List ℚ :=
  X.map (fun row => row.getD j 0)

/-- Number of columns of a row-major matrix (all rows built by
`selectMatrix` have equal length). -/
def nCols (X : List (List ℚ)) : ℕ :=
  (X.headD []).length

/-- `StandardScaler.fit`: per-column mean and variance of the data the
scaler is fitted on. -/
def scalerFit (X : List (List ℚ)) : ScalerParams :=
  { mean := (List.range (nCols X)).map (fun j => colMean (matCol X j))
    var := (List.range (nCols X)).map (fun j => colVar (matCol X j)) }

/-- `StandardScaler.transform`: `(x - mean) / sqrt(var)` per cell, with
sklearn's zero-variance guard (`scale_ = 1` when the variance is 0).  The
square root is the external numeric routine `sqrtQ`. -/
def scalerTransform (sqrtQ : ℚ → ℚ) (p : ScalerParams) (X : List (List ℚ)) :
    List (List ℚ) :=
  X.map (fun row =>
    (List.range row.length).map (fun j =>
      let v := p.var.getD j 0
      (row.getD j 0 - p.mean.getD j 0) / (if v = 0 then 1 else sqrtQ v)))

/-- The fitted state of `sklearn.linear_model.LogisticRegression` as far as
this repository reads it (`model.coef_[0]` and the intercept). -/
structure LogModel where
  coef : List ℚ
  intercept : ℚ
deriving DecidableEq

/-- The external sklearn/numpy routines `train_and_evaluate` calls whose
internals are out of scope (seeded PRNG splitting, the iterative logistic
solver, float square root, ROC-AUC integration).  Every theorem below is
quantified over this record. -/
structure SklearnOracle where
  tt_split : List (List ℚ) → List ℚ →
    List (List ℚ) × List (List ℚ) × List ℚ × List ℚ
  sqrtQ : ℚ → ℚ
  logisticFit : List (List ℚ) → List ℚ → LogModel
  predictOne : LogModel → List ℚ → ℚ
  probaOne : LogModel → List ℚ → ℚ
  roc_auc_score : List ℚ → List ℚ → ℚ

/-- The mutable attributes of a `ChurnPredictionModel` instance
(`self.scaler`'s fitted state, `self.model`, `self.feature_names_`,
`self._trained`). -/
structure ChurnModelState where
  scalerParams : Option ScalerParams
  model : Option LogModel
  feature_names : List String
  trained : Bool
deriving DecidableEq

/-- The state set up by `ChurnPredictionModel.__init__`: unfitted scaler,
no model, empty feature-name list. -/
def initState : ChurnModelState :=
  { scalerParams := none, model := none, feature_names := [], trained := false }

/-- `ChurnPredictionModel.train_model` (churn_model.py lines 89-105):
records the column names, fits the scaler on `X` (and only on `X`), fits
the classifier on the scaled `X`, and marks the instance trained. -/
def train_model (o : SklearnOracle) (st : ChurnModelState)
    (X : List (List ℚ)) (Xcols : List String) (y : List ℚ) :
    ChurnModelState × LogModel :=
  let p := scalerFit X
  let m := o.logisticFit (scalerTransform o.sqrtQ p X) y
  ({ scalerParams := some p, model := some m, feature_names := Xcols,
     trained := true }, m)

/-- Cell lookup `prepared[c]` for one `FeatureRow`; the only column whose
value can be missing (`NaN`) is `recency_bucket` (from `pd.cut`). -/
def featureCell (fr : FeatureRow) (c : String) : Option ℚ :=
  if c = "order_count_12m" then some fr.order_count_12m
  else if c = "revenue_12m" then some fr.revenue_12m
  else if c = "days_since_last_order" then some (fr.days_since_last_order : ℚ)
  else if c = "avg_order_value" then some fr.avg_order_value
  else if c = "log_revenue" then some fr.log_revenue
  else if c = "order_count_sq" then some fr.order_count_sq
  else if c = "recency_bucket" then fr.recency_bucket
  else if c = "is_high_value" then some (fr.is_high_value : ℚ)
  else if c = "orders_per_month" then some fr.orders_per_month
  else if c = "revenue_per_order" then some fr.revenue_per_order
  else none

/-- `prepared[feature_cols]`: the selected sub-frame, cells still possibly
missing. -/
def selectMatrix (rows : List FeatureRow) (cols : List String) :
    List (List (Option ℚ)) :=
  rows.map (fun fr => cols.map (featureCell fr))

/-- `X = prepared[feature_cols].fillna(0)` (churn_model.py line 244): the
design matrix handed to `train_test_split`, the scaler and the classifier;
every missing cell is replaced by 0, every present cell kept. -/
def run_design_matrix (rows : List FeatureRow) (cols : List String) :
    List (List ℚ) :=
  (selectMatrix rows cols).map (fun row => row.map (fun c => c.getD 0))

/-- Line 253 of churn_model.py:
`roc_auc_score(y_test, y_pred_proba) if len(np.unique(y_test)) > 1 else 0.0`. -/
def computeRocAuc (score : List ℚ → List ℚ → ℚ) (y_test y_proba : List ℚ) : ℚ :=
  if 1 < y_test.dedup.length then score y_test y_proba else 0

/-- `sklearn.metrics.accuracy_score`: fraction of positions where the
prediction equals the label. -/
def accuracyScore (yt yp : List ℚ) : ℚ :=
  (((yt.zip yp).countP (fun p => decide (p.1 = p.2)) : ℕ) : ℚ) / (yt.length : ℚ)

/-- `sklearn.metrics.confusion_matrix` for 0/1 labels: rows = actual
(not churned, churned), columns = predicted, in that order. -/
def confusionMatrixOf (yt yp : List ℚ) : List (List ℕ) :=
  let pairs := yt.zip yp
  [[pairs.countP (fun p => decide (p.1 = 0 ∧ p.2 = 0)),
    pairs.countP (fun p => decide (p.1 = 0 ∧ p.2 = 1))],
   [pairs.countP (fun p => decide (p.1 = 1 ∧ p.2 = 0)),
    pairs.countP (fun p => decide (p.1 = 1 ∧ p.2 = 1))]]

/-- The scaler parameters in effect when `train_and_evaluate` scales the
test split (line 248): `train_model` (line 247) has just fitted the scaler
on `X_train` alone (line 101); `X_test` is in scope during the run but, as
the theorems below record, never consulted when the parameters are
computed. -/
def run_scaler_params (o : SklearnOracle)
    (X_train X_test : List (List ℚ)) (cols : List String) (y_train : List ℚ) :
    Option ScalerParams :=
  ((train_model o initState X_train cols y_train).1).scalerParams

/-- `X_test_scaled = self.scaler.transform(X_test)` (line 248): the test
split transformed with the already-fitted parameters, never refitted. -/
def run_test_scaled (o : SklearnOracle)
    (X_train X_test : List (List ℚ)) (cols : List String) (y_train : List ℚ) :
    List (List ℚ) :=
  scalerTransform o.sqrtQ
    ((run_scaler_params o X_train X_test cols y_train).getD ⟨[], []⟩) X_test

/-- The error taxonomy named by the specification (`EmptyInputError` /
`EmptyDatasetError` and the missing-feature-columns error).  No such class
exists anywhere in the repository and `train_and_evaluate` raises on none
of its paths; the type exists so that "raises" versus "returns normally"
is expressible, and the theorems show the `error` constructors are never
produced. -/
inductive TrainError where
  | emptyInput
  | missingFeatureColumns
deriving DecidableEq

/-- The metrics part of the result dict of `train_and_evaluate` (keys
`accuracy`, `roc_auc`, `confusion_matrix`; the textual
`classification_report` is presentation-only and out of scope). -/
structure MetricsBundle where
  accuracy : ℚ
  roc_auc : ℚ
  confusion_mat : List (List ℕ)
deriving DecidableEq

/-- The value `train_and_evaluate` returns: the empty dict `{}` on its
skip paths (lines 230-232 and 241-243), or the populated metrics dict. -/
inductive TrainOutput where
  | emptyDict
  | metrics (m : MetricsBundle)
deriving DecidableEq

/-- Body of `ChurnPredictionModel.train_and_evaluate` (churn_model.py
lines 218-265), which returns a dict on every path: prepare features;
return `{}` if nothing survived or the label column is absent (lines
230-232); recover the feature-column list (lines 233-240) and return `{}`
if it is empty (lines 241-243); otherwise build `X` with `fillna(0)`,
split, train (fitting the scaler on the train split only), scale the test
split with the fitted parameters, predict, and assemble the metrics.
Plot rendering and file writes (lines 255-257, 264) are I/O side effects
with no influence on the returned data and are not modelled. -/
def train_and_evaluate_impl (o : SklearnOracle) (l : ℚ → ℚ) (ref : ℤ)
    (df : RawDF) : TrainOutput :=
  let prepared := prepare_features l ref df
  let preparedCols := preparedColumnsOf df
  let feature_names_state :=
    if df.rows.isEmpty then []
    else featureColsList.filter (fun c => preparedCols.contains c)
  if prepared.isEmpty || !(preparedCols.contains "is_churned") then
    TrainOutput.emptyDict
  else
    let fcols1 := feature_names_state.filter (fun c => preparedCols.contains c)
    let feature_cols :=
      if fcols1.isEmpty then featureColsList.filter (fun c => preparedCols.contains c)
      else fcols1
    if feature_cols.isEmpty then TrainOutput.emptyDict
    else
      let X := run_design_matrix prepared feature_cols
      let y := prepared.map (fun fr => fr.is_churned.getD 0)
      match o.tt_split X y with
      | (X_train, X_test, y_train, y_test) =>
        let st := (train_model o initState X_train feature_cols y_train).1
        let X_test_scaled := run_test_scaled o X_train X_test feature_cols y_train
        let model := st.model.getD ⟨[], 0⟩
        let y_pred := X_test_scaled.map (fun row => o.predictOne model row)
        let y_pred_proba := X_test_scaled.map (fun row => o.probaOne model row)
        TrainOutput.metrics
          { accuracy := accuracyScore y_test y_pred
            roc_auc := computeRocAuc o.roc_auc_score y_test y_pred_proba
            confusion_mat := confusionMatrixOf y_test y_pred }

/-- `ChurnPredictionModel.train_and_evaluate`, with its (never exercised)
possibility of raising made explicit in the type: the body raises nothing,
so the result is always `Except.ok`. -/
def train_and_evaluate (o : SklearnOracle) (l : ℚ → ℚ) (ref : ℤ)
    (df : RawDF) : Except TrainError TrainOutput :=
  Except.ok (train_and_evaluate_impl o l ref df)

/-- A concrete oracle instance used for witness evaluations (its routines
are irrelevant to the paths the witnesses take). -/
def trivialOracle : SklearnOracle :=
  { tt_split := fun _ _ => ([], [], [], [])
    sqrtQ := fun q => q
    logisticFit := fun _ _ => ⟨[], 0⟩
    predictOne := fun _ _ => 0
    probaOne := fun _ _ => 0
    roc_auc_score := fun _ _ => 0 }

/-- The identity on `ℚ`, used as a concrete stand-in for the `log10`
argument in witness evaluations (no verified property depends on its
values). -/
def idQ : ℚ → ℚ :=
  fun q => q

/-- A five-customer batch with revenues 10, 20, 30, 40, 50, every row
labelled: the batch of the specification's median boundary example. -/
def dfFive : RawDF :=
  ⟨true,
    [⟨1, 1, 10, some 0, some 0⟩, ⟨2, 1, 20, some 0, some 0⟩,
     ⟨3, 1, 30, some 0, some 0⟩, ⟨4, 1, 40, some 0, some 1⟩,
     ⟨5, 1, 50, some 0, some 1⟩]⟩

/-- The same five revenues, but the two largest rows carry a missing
(`NaN`) `is_churned` label: used to exhibit that unlabelled rows still
move the high-value median threshold. -/
def dfMixed : RawDF :=
  ⟨true,
    [⟨1, 1, 10, some 0, some 0⟩, ⟨2, 1, 20, some 0, some 0⟩,
     ⟨3, 1, 30, some 0, some 0⟩, ⟨4, 1, 40, some 0, none⟩,
     ⟨5, 1, 50, some 0, none⟩]⟩

/-- Only the three labelled rows of `dfMixed`. -/
def dfLabeledOnly : RawDF :=
  ⟨true,
    [⟨1, 1, 10, some 0, some 0⟩, ⟨2, 1, 20, some 0, some 0⟩,
     ⟨3, 1, 30, some 0, some 0⟩]⟩

/-- Every surviving output row of `prepare_features` is the feature build
of some input row, with the batch median of `revenue_12m` taken over all
input rows, and carries a present label. -/
theorem mem_prepare_features {l : ℚ → ℚ} {ref : ℤ} {df : RawDF}
    {fr : FeatureRow} (h : fr ∈ prepare_features l ref df) :
    ∃ r ∈ df.rows,
      fr = mkFeatureRow l df.hasLastOrderDate ref
        (pandasMedian (df.rows.map (fun r => r.revenue_12m))) r
      ∧ fr.is_churned.isSome = true := by
  unfold prepare_features at h
  split at h
  · simp at h
  · rw [List.mem_filter] at h
    obtain ⟨hmem, hsome⟩ := h
    rw [List.mem_map] at hmem
    obtain ⟨r, hr, hfr⟩ := hmem
    exact ⟨r, hr, hfr.symm, hsome⟩

/-- `days_since_last_order` is clamped into `[0, 999]` on every branch. -/
theorem daysSince_range (hasCol : Bool) (ref : ℤ) (lod : Option ℤ) :
    0 ≤ daysSince hasCol ref lod ∧ daysSince hasCol ref lod ≤ 999 := by
  unfold daysSince
  cases hasCol <;> cases lod <;> simp <;> omega

/-- Bin facts of `pd.cut` on the clamped day counts: a value in `[0, 999]`
lands in one of the four labelled bins, 0 lands in bin 1, and anything
above 90 lands in bin 4. -/
theorem pdCutRecency_spec (d : ℤ) (h0 : 0 ≤ d) (h999 : d ≤ 999) :
    (pdCutRecency d = some 1 ∨ pdCutRecency d = some 2 ∨
      pdCutRecency d = some 3 ∨ pdCutRecency d = some 4)
    ∧ (d = 0 → pdCutRecency d = some 1)
    ∧ (90 < d → pdCutRecency d = some 4) := by
  unfold pdCutRecency
  split_ifs with h1 h2 h3 h4
  · exact ⟨Or.inl rfl, fun _ => rfl, fun hgt => absurd h1 (by omega)⟩
  · exact ⟨Or.inr (Or.inl rfl), fun hz => absurd h2 (by omega),
      fun hgt => absurd h2 (by omega)⟩
  · exact ⟨Or.inr (Or.inr (Or.inl rfl)), fun hz => absurd h3 (by omega),
      fun hgt => absurd h3 (by omega)⟩
  · exact ⟨Or.inr (Or.inr (Or.inr rfl)), fun hz => absurd h4 (by omega),
      fun _ => rfl⟩
  · omega

/-- Shared helper for the high-value flag: every output row's
`is_high_value` is the indicator of its `revenue_12m` reaching the batch
median taken over all input rows. -/
theorem is_high_value_of_mem {l : ℚ → ℚ} {ref : ℤ} {df : RawDF}
    {fr : FeatureRow} (h : fr ∈ prepare_features l ref df) :
    fr.is_high_value =
      if pandasMedian (df.rows.map (fun r => r.revenue_12m)) ≤ fr.revenue_12m
      then 1 else 0 := by
  obtain ⟨r, _, hfr, _⟩ := mem_prepare_features h
  subst hfr
  simp [mkFeatureRow]

/-- Claim C1 as the specification states it is false: on an input whose
prepared feature table is empty, `train_and_evaluate` does not raise any
`EmptyInputError`-style exception — at the concrete empty frame it returns
normally with the empty result dict. -/
theorem C1_counterexample_empty_input_returns :
    train_and_evaluate trivialOracle idQ 0 ⟨true, []⟩ =
      Except.ok TrainOutput.emptyDict
    ∧ ¬ ∃ e, train_and_evaluate trivialOracle idQ 0 ⟨true, []⟩ =
        Except.error e := by
  refine ⟨rfl, ?_⟩
  rintro ⟨e, he⟩
  rw [train_and_evaluate] at he
  exact Except.noConfusion he

/-- Claim C1 (amended): whenever feature preparation leaves zero usable
rows, `train_and_evaluate` returns the empty result dict — training is
skipped, no model is produced, and no exception is raised. -/
theorem C1_empty_prepared_skips_training (o : SklearnOracle) (l : ℚ → ℚ)
    (ref : ℤ) (df : RawDF) (h : prepare_features l ref df = []) :
    train_and_evaluate o l ref df = Except.ok TrainOutput.emptyDict := by
  rw [train_and_evaluate, train_and_evaluate_impl]
  simp [h]

/-- Witness for C1 (amended): the empty frame prepares to zero rows, and
`train_and_evaluate` on it returns the empty dict. -/
theorem C1_witness :
    prepare_features idQ 0 ⟨true, []⟩ = []
    ∧ train_and_evaluate trivialOracle idQ 0 ⟨true, []⟩ =
        Except.ok TrainOutput.emptyDict :=
  ⟨rfl, C1_empty_prepared_skips_training trivialOracle idQ 0 ⟨true, []⟩ rfl⟩

/-- Claim C2: feature preparation is deterministic — two calls with the
same input frame and the same reference date (the single
`pd.Timestamp("now").normalize()` read of the call) yield identical
feature rows. -/
theorem C2_prepare_features_deterministic (l : ℚ → ℚ) (ref ref2 : ℤ)
    (df df2 : RawDF) (hdf : df = df2) (href : ref = ref2) :
    prepare_features l ref df = prepare_features l ref2 df2 := by
  subst hdf
  subst href
  rfl

/-- Witness for C2 at a concrete one-row frame. -/
theorem C2_witness :
    ((⟨true, [⟨1, 2, 30, some (-10), some 1⟩]⟩ : RawDF) =
        ⟨true, [⟨1, 2, 30, some (-10), some 1⟩]⟩ ∧ (5 : ℤ) = 5)
    ∧ prepare_features idQ 5 ⟨true, [⟨1, 2, 30, some (-10), some 1⟩]⟩ =
        prepare_features idQ 5 ⟨true, [⟨1, 2, 30, some (-10), some 1⟩]⟩ :=
  ⟨⟨rfl, rfl⟩,
    C2_prepare_features_deterministic idQ 5 5
      ⟨true, [⟨1, 2, 30, some (-10), some 1⟩]⟩
      ⟨true, [⟨1, 2, 30, some (-10), some 1⟩]⟩ rfl rfl⟩

/-- Claim C3: for every output row, `days_since_last_order` is an integer
in `[0, 999]`; per row it equals the day difference `ref - last_order_date`
clipped to `[0, 999]` when a date is present, and is 999 whenever the date
is absent/unparseable or the column is missing altogether. -/
theorem C3_days_since_last_order (l : ℚ → ℚ) (ref : ℤ) (df : RawDF)
    (fr : FeatureRow) (h : fr ∈ prepare_features l ref df) :
    (0 ≤ fr.days_since_last_order ∧ fr.days_since_last_order ≤ 999)
    ∧ (∀ (l2 : ℚ → ℚ) (hasCol : Bool) (ref2 : ℤ) (med : ℚ) (r : RawRow),
        (mkFeatureRow l2 hasCol ref2 med r).days_since_last_order =
          daysSince hasCol ref2 r.last_order_date)
    ∧ (∀ (ref2 : ℤ) (d : ℤ), daysSince true ref2 (some d) =
        min 999 (max 0 (ref2 - d)))
    ∧ (∀ (hasCol : Bool) (ref2 : ℤ), daysSince hasCol ref2 none = 999)
    ∧ (∀ (ref2 : ℤ) (lod : Option ℤ), daysSince false ref2 lod = 999) := by
  refine ⟨?_, ?_, ?_, ?_, ?_⟩
  · obtain ⟨r, _, hfr, _⟩ := mem_prepare_features h
    subst hfr
    simpa [mkFeatureRow] using
      daysSince_range df.hasLastOrderDate ref r.last_order_date
  · intro l2 hasCol ref2 med r
    simp [mkFeatureRow]
  · intro ref2 d
    simp [daysSince]
  · intro hasCol ref2
    cases hasCol <;> simp [daysSince]
  · intro ref2 lod
    simp [daysSince]

/-- Witness for C3: a one-row frame whose order date lies 10 days before
the reference date; its output row is in the result and its recency lies
in `[0, 999]`. -/
theorem C3_witness :
    (mkFeatureRow idQ true 5 30 ⟨1, 2, 30, some (-5), some 1⟩ ∈
        prepare_features idQ 5 ⟨true, [⟨1, 2, 30, some (-5), some 1⟩]⟩)
    ∧ (0 ≤ (mkFeatureRow idQ true 5 30
          ⟨1, 2, 30, some (-5), some 1⟩).days_since_last_order
        ∧ (mkFeatureRow idQ true 5 30
          ⟨1, 2, 30, some (-5), some 1⟩).days_since_last_order ≤ 999) :=
  have hmem : mkFeatureRow idQ true 5 30 ⟨1, 2, 30, some (-5), some 1⟩ ∈
      prepare_features idQ 5 ⟨true, [⟨1, 2, 30, some (-5), some 1⟩]⟩ := by
    rw [show prepare_features idQ 5 ⟨true, [⟨1, 2, 30, some (-5), some 1⟩]⟩ =
        [mkFeatureRow idQ true 5 30 ⟨1, 2, 30, some (-5), some 1⟩] from rfl]
    exact List.mem_singleton_self _
  ⟨hmem,
    (C3_days_since_last_order idQ 5 ⟨true, [⟨1, 2, 30, some (-5), some 1⟩]⟩
      (mkFeatureRow idQ true 5 30 ⟨1, 2, 30, some (-5), some 1⟩) hmem).1⟩

/-- Claim C6: `is_high_value` is 1 exactly on the rows whose `revenue_12m`
reaches the batch median of `revenue_12m`, and 0 otherwise. -/
theorem C6_is_high_value_median_boundary (l : ℚ → ℚ) (ref : ℤ) (df : RawDF)
    (fr : FeatureRow) (h : fr ∈ prepare_features l ref df) :
    fr.is_high_value =
      if pandasMedian (df.rows.map (fun r => r.revenue_12m)) ≤ fr.revenue_12m
      then 1 else 0 :=
  is_high_value_of_mem h

/-- Witness for C6 on the specification's example batch: revenues
10, 20, 30, 40, 50 have median 30, exactly the three rows at or above 30
get flag 1, and the theorem instantiates at the boundary row. -/
theorem C6_witness :
    pandasMedian [10, 20, 30, 40, 50] = 30
    ∧ (prepare_features idQ 0 dfFive).map (fun fr => fr.is_high_value) =
        [0, 0, 1, 1, 1]
    ∧ (mkFeatureRow idQ true 0 30 ⟨3, 1, 30, some 0, some 0⟩ ∈
        prepare_features idQ 0 dfFive)
    ∧ (mkFeatureRow idQ true 0 30 ⟨3, 1, 30, some 0, some 0⟩).is_high_value =
        (if pandasMedian (dfFive.rows.map (fun r => r.revenue_12m)) ≤
            (mkFeatureRow idQ true 0 30 ⟨3, 1, 30, some 0, some 0⟩).revenue_12m
          then 1 else 0) :=
  have hmem : mkFeatureRow idQ true 0 30 ⟨3, 1, 30, some 0, some 0⟩ ∈
      prepare_features idQ 0 dfFive := by
    rw [show prepare_features idQ 0 dfFive =
        [mkFeatureRow idQ true 0 30 ⟨1, 1, 10, some 0, some 0⟩,
         mkFeatureRow idQ true 0 30 ⟨2, 1, 20, some 0, some 0⟩,
         mkFeatureRow idQ true 0 30 ⟨3, 1, 30, some 0, some 0⟩,
         mkFeatureRow idQ true 0 30 ⟨4, 1, 40, some 0, some 1⟩,
         mkFeatureRow idQ true 0 30 ⟨5, 1, 50, some 0, some 1⟩] from rfl]
    exact List.mem_cons_of_mem _ (List.mem_cons_of_mem _
      (List.mem_cons_self _ _))
  ⟨rfl, rfl, hmem,
    C6_is_high_value_median_boundary idQ 0 dfFive
      (mkFeatureRow idQ true 0 30 ⟨3, 1, 30, some 0, some 0⟩) hmem⟩

/-- Claim C7: `avg_order_value` and `revenue_per_order` coincide on every
output row, both being `revenue_12m / (order_count_12m + 1)`, and for a
nonnegative order count the divisor is at least 1. -/
theorem C7_avg_order_value_duplication (l : ℚ → ℚ) (ref : ℤ) (df : RawDF)
    (fr : FeatureRow) (h : fr ∈ prepare_features l ref df) :
    fr.avg_order_value = fr.revenue_per_order
    ∧ fr.avg_order_value = fr.revenue_12m / (fr.order_count_12m + 1)
    ∧ (0 ≤ fr.order_count_12m → (1 : ℚ) ≤ fr.order_count_12m + 1) := by
  obtain ⟨r, _, hfr, _⟩ := mem_prepare_features h
  subst hfr
  refine ⟨rfl, rfl, ?_⟩
  intro h0
  simp only [mkFeatureRow] at h0 ⊢
  linarith

/-- Witness for C7 at the head row of the example batch. -/
theorem C7_witness :
    (mkFeatureRow idQ true 0 30 ⟨1, 1, 10, some 0, some 0⟩ ∈
        prepare_features idQ 0 dfFive)
    ∧ (0 : ℚ) ≤ (mkFeatureRow idQ true 0 30
        ⟨1, 1, 10, some 0, some 0⟩).order_count_12m
    ∧ (mkFeatureRow idQ true 0 30 ⟨1, 1, 10, some 0, some 0⟩).avg_order_value =
        (mkFeatureRow idQ true 0 30 ⟨1, 1, 10, some 0, some 0⟩).revenue_per_order
    ∧ (1 : ℚ) ≤ (mkFeatureRow idQ true 0 30
        ⟨1, 1, 10, some 0, some 0⟩).order_count_12m + 1 :=
  have hmem : mkFeatureRow idQ true 0 30 ⟨1, 1, 10, some 0, some 0⟩ ∈
      prepare_features idQ 0 dfFive := by
    rw [show prepare_features idQ 0 dfFive =
        mkFeatureRow idQ true 0 30 ⟨1, 1, 10, some 0, some 0⟩ ::
          (prepare_features idQ 0 dfFive).tail from rfl]
    exact List.mem_cons_self _ _
  have h0 : (0 : ℚ) ≤ (mkFeatureRow idQ true 0 30
      ⟨1, 1, 10, some 0, some 0⟩).order_count_12m := by norm_num [mkFeatureRow]
  ⟨hmem, h0,
    (C7_avg_order_value_duplication idQ 0 dfFive _ hmem).1,
    (C7_avg_order_value_duplication idQ 0 dfFive _ hmem).2.2 h0⟩

/-- Claim C8: every output row's `recency_bucket` is one of the four
ordinal bins; 0 recency lands in bin 1 and any recency above 90 lands in
bin 4. -/
theorem C8_recency_bucket_bins (l : ℚ → ℚ) (ref : ℤ) (df : RawDF)
    (fr : FeatureRow) (h : fr ∈ prepare_features l ref df) :
    (fr.recency_bucket = some 1 ∨ fr.recency_bucket = some 2 ∨
      fr.recency_bucket = some 3 ∨ fr.recency_bucket = some 4)
    ∧ (fr.days_since_last_order = 0 → fr.recency_bucket = some 1)
    ∧ (90 < fr.days_since_last_order → fr.recency_bucket = some 4) := by
  obtain ⟨r, _, hfr, _⟩ := mem_prepare_features h
  subst hfr
  obtain ⟨h0, h999⟩ := daysSince_range df.hasLastOrderDate ref r.last_order_date
  simpa [mkFeatureRow] using
    pdCutRecency_spec (daysSince df.hasLastOrderDate ref r.last_order_date)
      h0 h999

/-- Witness for C8: the head row of the example batch has recency 0 and
falls in bucket 1. -/
theorem C8_witness :
    (mkFeatureRow idQ true 0 30 ⟨1, 1, 10, some 0, some 0⟩ ∈
        prepare_features idQ 0 dfFive)
    ∧ (mkFeatureRow idQ true 0 30
        ⟨1, 1, 10, some 0, some 0⟩).days_since_last_order = 0
    ∧ (mkFeatureRow idQ true 0 30
        ⟨1, 1, 10, some 0, some 0⟩).recency_bucket = some 1 :=
  have hmem : mkFeatureRow idQ true 0 30 ⟨1, 1, 10, some 0, some 0⟩ ∈
      prepare_features idQ 0 dfFive := by
    rw [show prepare_features idQ 0 dfFive =
        mkFeatureRow idQ true 0 30 ⟨1, 1, 10, some 0, some 0⟩ ::
          (prepare_features idQ 0 dfFive).tail from rfl]
    exact List.mem_cons_self _ _
  ⟨hmem, rfl,
    (C8_recency_bucket_bins idQ 0 dfFive _ hmem).2.1 rfl⟩

/-- Claim C10: the median threshold of `is_high_value` is computed over
all input rows — rows without a valid label are dropped only after the
derived columns exist, so unlabelled rows still move the threshold.  On
`dfMixed` (revenues 10, 20, 30 labelled, 40, 50 unlabelled) the median is
30 and the surviving flags are 0, 0, 1; on the labelled rows alone the
median would be 20 and the flags 0, 1, 1. -/
theorem C10_median_includes_unlabeled :
    (∀ (l : ℚ → ℚ) (ref : ℤ) (df : RawDF) (fr : FeatureRow),
        fr ∈ prepare_features l ref df →
          fr.is_churned.isSome = true ∧
          fr.is_high_value =
            (if pandasMedian (df.rows.map (fun r => r.revenue_12m)) ≤
                fr.revenue_12m then 1 else 0))
    ∧ pandasMedian (dfMixed.rows.map (fun r => r.revenue_12m)) = 30
    ∧ pandasMedian (dfLabeledOnly.rows.map (fun r => r.revenue_12m)) = 20
    ∧ (prepare_features idQ 0 dfMixed).map (fun fr => fr.is_high_value) =
        [0, 0, 1]
    ∧ (prepare_features idQ 0 dfLabeledOnly).map (fun fr => fr.is_high_value) =
        [0, 1, 1] := by
  refine ⟨?_, rfl, rfl, rfl, rfl⟩
  intro l ref df fr h
  obtain ⟨r, _, _, hsome⟩ := mem_prepare_features h
  exact ⟨hsome, is_high_value_of_mem h⟩

/-- Witness for C10 at a concrete surviving row of the mixed batch. -/
theorem C10_witness :
    (mkFeatureRow idQ true 0 30 ⟨3, 1, 30, some 0, some 0⟩ ∈
        prepare_features idQ 0 dfMixed)
    ∧ (mkFeatureRow idQ true 0 30
        ⟨3, 1, 30, some 0, some 0⟩).is_churned.isSome = true :=
  have hmem : mkFeatureRow idQ true 0 30 ⟨3, 1, 30, some 0, some 0⟩ ∈
      prepare_features idQ 0 dfMixed := by
    rw [show prepare_features idQ 0 dfMixed =
        [mkFeatureRow idQ true 0 30 ⟨1, 1, 10, some 0, some 0⟩,
         mkFeatureRow idQ true 0 30 ⟨2, 1, 20, some 0, some 0⟩,
         mkFeatureRow idQ true 0 30 ⟨3, 1, 30, some 0, some 0⟩] from rfl]
    exact List.mem_cons_of_mem _ (List.mem_cons_of_mem _
      (List.mem_cons_self _ _))
  ⟨hmem,
    (C10_median_includes_unlabeled.1 idQ 0 dfMixed _ hmem).1⟩

/-- Claim C4: the evaluation guard of churn_model.py line 253 — with only
one distinct label class in the test partition the reported ROC-AUC is
exactly 0 and nothing is raised; with both classes present it is the soft-
score ROC-AUC; and `train_and_evaluate` never produces an error value on
any input (no `DegenerateLabelError` exists). -/
theorem C4_roc_auc_degenerate_policy (score : List ℚ → List ℚ → ℚ)
    (y_test y_proba : List ℚ) :
    (y_test.dedup.length ≤ 1 → computeRocAuc score y_test y_proba = 0)
    ∧ (1 < y_test.dedup.length →
        computeRocAuc score y_test y_proba = score y_test y_proba)
    ∧ (∀ (o : SklearnOracle) (l : ℚ → ℚ) (ref : ℤ) (df : RawDF),
        ¬ ∃ e, train_and_evaluate o l ref df = Except.error e) := by
  refine ⟨?_, ?_, ?_⟩
  · intro hle
    rw [computeRocAuc, if_neg (by omega)]
  · intro hgt
    rw [computeRocAuc, if_pos hgt]
  · rintro o l ref df ⟨e, he⟩
    rw [train_and_evaluate] at he
    exact Except.noConfusion he

/-- Witness for C4: a single-class test vector reports 0, a two-class test
vector reports the oracle score. -/
theorem C4_witness :
    (([1, 1] : List ℚ).dedup.length ≤ 1
      ∧ computeRocAuc (fun _ _ => 1 / 2) [1, 1] [0, 0] = 0)
    ∧ (1 < ([0, 1] : List ℚ).dedup.length
      ∧ computeRocAuc (fun _ _ => 1 / 2) [0, 1] [0, 0] = 1 / 2) :=
  ⟨⟨by decide,
      (C4_roc_auc_degenerate_policy (fun _ _ => 1 / 2) [1, 1] [0, 0]).1
        (by decide)⟩,
    ⟨by decide,
      (C4_roc_auc_degenerate_policy (fun _ _ => 1 / 2) [0, 1] [0, 0]).2.1
        (by decide)⟩⟩

/-- Claim C5: the scaling parameters applied during evaluation are a
function of the training partition alone — `train_model` fits them on
`X_train` only, two runs sharing a training partition but differing in
test partitions apply identical parameters, and the test partition is only
ever transformed with those fitted parameters, never refitted. -/
theorem C5_scaler_fitted_on_train_only (o : SklearnOracle)
    (X_train X_test X_test2 : List (List ℚ)) (cols : List String)
    (y_train : List ℚ) :
    run_scaler_params o X_train X_test cols y_train =
      run_scaler_params o X_train X_test2 cols y_train
    ∧ run_scaler_params o X_train X_test cols y_train =
        some (scalerFit X_train)
    ∧ run_test_scaled o X_train X_test cols y_train =
        scalerTransform o.sqrtQ (scalerFit X_train) X_test :=
  ⟨rfl, rfl, rfl⟩

/-- Cell-level description of `fillna(0)` over a matrix of possibly
missing cells: each output cell is the input cell where present and 0
where missing (out-of-range indices agree on the defaults). -/
theorem fillna_row (row : List (Option ℚ)) (j : ℕ) :
    (row.map (fun c => c.getD 0)).getD j 0 = (row.getD j none).getD 0 := by
  induction row generalizing j with
  | nil => simp
  | cons c cs ihc =>
    cases j with
    | zero => simp
    | succ j => simpa using ihc j

/-- Cell-level description of `fillna(0)` over a matrix of possibly
missing cells: each output cell is the input cell where present and 0
where missing (out-of-range indices agree on the defaults). -/
theorem fillna_cell (m : List (List (Option ℚ))) (i j : ℕ) :
    ((m.map (fun row => row.map (fun c => c.getD 0))).getD i []).getD j 0 =
      ((m.getD i []).getD j none).getD 0 := by
  induction m generalizing i with
  | nil => simp
  | cons hd tl ih =>
    cases i with
    | zero =>
      simp only [List.map_cons, List.getD_cons_zero]
      exact fillna_row hd j
    | succ i => simpa using ih i

/-- Claim C9: line 244 of churn_model.py — the design matrix handed to the
splitter, scaler and classifier is the selected feature sub-frame with
every missing cell replaced by 0 and every present cell kept verbatim, so
it contains no missing values; its shape matches the selection. -/
theorem C9_fillna_zero_design_matrix (rows : List FeatureRow)
    (cols : List String) (i j : ℕ) :
    ((run_design_matrix rows cols).getD i []).getD j 0 =
      ((((selectMatrix rows cols).getD i []).getD j none).getD 0)
    ∧ (run_design_matrix rows cols).length = (selectMatrix rows cols).length := by
  constructor
  · rw [run_design_matrix]
    exact fillna_cell (selectMatrix rows cols) i j
  · rw [run_design_matrix, List.length_map]
